import Mathlib

/-!
Verification of the Body3Dmetric anthropometric pipeline.

The repository is a TypeScript application: user biometrics plus AI-estimated
body-width ratios are turned into a measurement record (widths, elliptical
circumferences, BMI, waist-hip ratio, waist-height ratio) and a lathed 3D
silhouette mesh that can be exported as an OBJ file.

Modelling conventions used throughout this file:
* JavaScript numbers (IEEE doubles) are modelled by exact real arithmetic,
  extended with the special values that matter to the analysed code paths:
  `JSNum` has constructors for `NaN`, `±Infinity`, a finite real payload, and
  `undefined` (the value read from a missing object field).  `-0` and the
  rounding error of individual double operations are not modelled; none of the
  verified properties sits near a double rounding boundary.
* `Math.sqrt`, `Math.round`, `Math.max`, `toFixed` are modelled by
  `Real.sqrt`, `round` (both round half up, matching JS `Math.round`),
  `max`, and decimal rounding on the finite payload.
* Fallible control flow (the `try`/`catch` around the oracle call) is
  modelled with `Except`.
-/

namespace Body3D

/-- A JavaScript number as used by the analysed code: `NaN`, the two
infinities, a finite value (modelled by an exact real), or the `undefined`
obtained by reading an absent object field (which behaves as `NaN` in every
arithmetic operation). -/
inductive JSNum where
  | nan : JSNum
  | inf : JSNum
  | ninf : JSNum
  | num : ℝ → JSNum
  | undef : JSNum

/-- JavaScript `isNaN` on a number (an `undefined` operand also reports true
since `Number(undefined)` is `NaN`). -/
def jsIsNaN : JSNum → Bool
  | .nan => true
  | .undef => true
  | _ => false

/-- JavaScript `+` on numbers. -/
noncomputable def jsAdd : JSNum → JSNum → JSNum
  | .undef, _ => .nan
  | .nan, _ => .nan
  | _, .undef => .nan
  | _, .nan => .nan
  | .num x, .num y => .num (x + y)
  | .inf, .ninf => .nan
  | .ninf, .inf => .nan
  | .inf, _ => .inf
  | _, .inf => .inf
  | .ninf, _ => .ninf
  | _, .ninf => .ninf

/-- JavaScript `-` on numbers. -/
noncomputable def jsSub : JSNum → JSNum → JSNum
  | .undef, _ => .nan
  | .nan, _ => .nan
  | _, .undef => .nan
  | _, .nan => .nan
  | .num x, .num y => .num (x - y)
  | .inf, .inf => .nan
  | .ninf, .ninf => .nan
  | .inf, _ => .inf
  | .ninf, _ => .ninf
  | _, .inf => .ninf
  | _, .ninf => .inf

/-- JavaScript `*` on numbers (`Infinity * 0` is `NaN`). -/
noncomputable def jsMul : JSNum → JSNum → JSNum
  | .undef, _ => .nan
  | .nan, _ => .nan
  | _, .undef => .nan
  | _, .nan => .nan
  | .num x, .num y => .num (x * y)
  | .inf, .inf => .inf
  | .inf, .ninf => .ninf
  | .ninf, .inf => .ninf
  | .ninf, .ninf => .inf
  | .inf, .num y => if 0 < y then .inf else if y < 0 then .ninf else .nan
  | .num x, .inf => if 0 < x then .inf else if x < 0 then .ninf else .nan
  | .ninf, .num y => if 0 < y then .ninf else if y < 0 then .inf else .nan
  | .num x, .ninf => if 0 < x then .ninf else if x < 0 then .inf else .nan

/-- JavaScript `/` on numbers: division by zero produces `±Infinity`, and
`0 / 0` produces `NaN` (the sign of zero is not modelled). -/
noncomputable def jsDiv : JSNum → JSNum → JSNum
  | .undef, _ => .nan
  | .nan, _ => .nan
  | _, .undef => .nan
  | _, .nan => .nan
  | .num x, .num y =>
      if y = 0 then (if x = 0 then .nan else if 0 < x then .inf else .ninf)
      else .num (x / y)
  | .inf, .inf => .nan
  | .inf, .ninf => .nan
  | .ninf, .inf => .nan
  | .ninf, .ninf => .nan
  | .inf, .num y => if 0 ≤ y then .inf else .ninf
  | .ninf, .num y => if 0 ≤ y then .ninf else .inf
  | .num _, .inf => .num 0
  | .num _, .ninf => .num 0

/-- JavaScript `Math.pow(x, 2)`. -/
noncomputable def jsSq : JSNum → JSNum
  | .undef => .nan
  | .nan => .nan
  | .inf => .inf
  | .ninf => .inf
  | .num x => .num (x ^ 2)

/-- JavaScript `Math.sqrt`: `NaN` on a negative argument. -/
noncomputable def jsSqrt : JSNum → JSNum
  | .undef => .nan
  | .nan => .nan
  | .inf => .inf
  | .ninf => .nan
  | .num x => if x < 0 then .nan else .num (Real.sqrt x)

/-- JavaScript `Math.max` restricted to two arguments (`NaN` operands force
`NaN`). -/
noncomputable def jsMax : JSNum → JSNum → JSNum
  | .undef, _ => .nan
  | .nan, _ => .nan
  | _, .undef => .nan
  | _, .nan => .nan
  | .num x, .num y => .num (max x y)
  | .inf, _ => .inf
  | _, .inf => .inf
  | .ninf, y => y
  | x, .ninf => x

/-- JavaScript `Math.round` (round half towards positive infinity, exactly
Mathlib's `round`). -/
noncomputable def jsRound : JSNum → JSNum
  | .undef => .nan
  | .nan => .nan
  | .inf => .inf
  | .ninf => .ninf
  | .num x => .num ((round x : ℤ) : ℝ)

/-- JavaScript `Number(x.toFixed(k))`: the finite payload is rounded to `k`
decimal places; none of the verified values sits at a decimal tie affected by
double representation. -/
noncomputable def jsToFixed (k : ℕ) : JSNum → JSNum
  | .undef => .nan
  | .nan => .nan
  | .inf => .inf
  | .ninf => .ninf
  | .num x => .num (((round (x * 10 ^ k) : ℤ) : ℝ) / 10 ^ k)

/-- JavaScript `Math.PI`. -/
noncomputable def jsPi : JSNum := .num Real.pi

/-- The unrounded Ramanujan ellipse-perimeter value computed by
`calcCircumference` in `App.tsx` (extended variant, depth factor a parameter)
and in the simple variant (depth factor fixed at `0.7`):
`a = width/2`, `b = width*depthFactor/2`, `h = (a-b)^2/(a+b)^2`,
`P = PI * (a+b) * (1 + 3h / (10 + sqrt(4 - 3h)))`. -/
noncomputable def ramanujanPerimeter (d w : ℝ) : ℝ :=
  let a := w / 2
  let b := w * d / 2
  let h := (a - b) ^ 2 / (a + b) ^ 2
  Real.pi * (a + b) * (1 + 3 * h / (10 + Real.sqrt (4 - 3 * h)))

/-- Function `calcCircumference` from `App.tsx` / the simple `App` variant on a finite
positive width: the Ramanujan perimeter rounded with `Math.round`. -/
noncomputable def calcCircumference (d w : ℝ) : ℤ :=
  round (ramanujanPerimeter d w)

/-- Expression `const depthFactor = age > 50 ? 0.78 : 0.75` from `processImage` in
`App.tsx` (extended variant). -/
noncomputable def depthFactor (age : ℝ) : ℝ :=
  if age > 50 then 0.78 else 0.75

/-- Function `calcCircumference` from `App.tsx` as executed on JavaScript numbers,
operation by operation (so that `NaN`/division-by-zero behaviour on degenerate
widths is captured). -/
noncomputable def jsCalcCircumference (d : ℝ) (width : JSNum) : JSNum :=
  let a := jsDiv width (.num 2)
  let b := jsDiv (jsMul width (.num d)) (.num 2)
  let h := jsDiv (jsSq (jsSub a b)) (jsSq (jsAdd a b))
  jsRound (jsMul (jsMul jsPi (jsAdd a b))
    (jsAdd (.num 1)
      (jsDiv (jsMul (.num 3) h)
        (jsAdd (.num 10) (jsSqrt (jsSub (.num 4) (jsMul (.num 3) h)))))))

/-- The five ratio fields of the oracle response (`AnalysisResponse` in
`types.ts`); a field that is absent from the parsed JSON reads as
`JSNum.undef`. -/
structure RatioFields where
  waistRatio : JSNum
  hipRatio : JSNum
  shoulderRatio : JSNum
  chestRatio : JSNum
  torsoHeightRatio : JSNum

/-- Interface `AnalysisResponse` from `types.ts`. -/
structure AnalysisResponse where
  measurements : RatioFields
  confidence : JSNum

/-- Interface `BodyMeasurements` from `types.ts` (with the `age` field added by the
extended `App.tsx` variant).  Note: the interface has no `confidence` field. -/
structure BodyMeasurements where
  height : ℝ
  weight : ℝ
  age : ℝ
  waistWidth : JSNum
  hipWidth : JSNum
  shoulderWidth : JSNum
  chestWidth : JSNum
  waistCircumference : JSNum
  hipCircumference : JSNum
  bmi : JSNum
  whr : JSNum
  whtr : JSNum

/-- Expression `Number((weight / Math.pow(height / 100, 2)).toFixed(1))` from
`processImage` in `App.tsx`. -/
noncomputable def bmiOf (height weight : ℝ) : JSNum :=
  jsToFixed 1 (jsDiv (.num weight) (jsSq (jsDiv (.num height) (.num 100))))

/-- The arithmetic part of `processImage` from `App.tsx` (extended variant),
run after `analyzeBodyImage` has returned a parsed response.  The code
performs no validation of the ratio fields; every expression is translated
operation by operation. -/
noncomputable def processImage (resp : AnalysisResponse) (height weight age : ℝ) :
    BodyMeasurements :=
  let ratios := resp.measurements
  let scale := height
  let wWidth := jsMul ratios.waistRatio (.num scale)
  let hWidth := jsMul ratios.hipRatio (.num scale)
  let d := depthFactor age
  let waistCircum := jsCalcCircumference d wWidth
  let hipCircum := jsCalcCircumference d hWidth
  { height := height
    weight := weight
    age := age
    waistWidth := jsDiv (jsMul ratios.waistRatio (.num scale)) (.num 100)
    hipWidth := jsDiv (jsMul ratios.hipRatio (.num scale)) (.num 100)
    shoulderWidth := jsDiv (jsMul ratios.shoulderRatio (.num scale)) (.num 100)
    chestWidth := jsDiv (jsMul ratios.chestRatio (.num scale)) (.num 100)
    waistCircumference := waistCircum
    hipCircumference := hipCircum
    bmi := bmiOf height weight
    whr := jsToFixed 2 (jsDiv waistCircum hipCircum)
    whtr := jsToFixed 2 (jsDiv waistCircum (.num height)) }

/-- The only typed failure of the analysis flow: `analyzeBodyImage` throws
`new Error("Could not analyze body proportions.")` when `JSON.parse` fails;
no other error is raised on the success path of `processImage`. -/
inductive AnalysisError where
  | parseError (message : String) : AnalysisError
deriving DecidableEq

/-- The `try`/`catch` of `processImage`: a response that failed to parse
yields the typed parse error; a parsed response always yields a measurement
record (the arithmetic never throws in JavaScript). -/
noncomputable def runAnalysis (parsed : Option AnalysisResponse)
    (height weight age : ℝ) : Except AnalysisError BodyMeasurements :=
  match parsed with
  | none => .error (.parseError "Could not analyze body proportions.")
  | some resp => .ok (processImage resp height weight age)

/-- Function `getBMIStatus` from `App.tsx` (label component only). -/
noncomputable def getBMIStatus (val : ℝ) : String :=
  if val < 18.5 then "BAJO PESO"
  else if val < 25 then "NORMAL"
  else if val < 30 then "SOBREPESO"
  else "OBESIDAD"

/-- Helper `THREE.MathUtils.lerp(x, y, t) = x + (y - x) * t`. -/
noncomputable def lerp (x y t : ℝ) : ℝ := x + (y - x) * t

/-- The anthropometric landmark table of the extended `ModelViewer`
(normalized height fraction, radius); radii derive from the record's widths
or scale with `scaleFactor`. -/
noncomputable def landmarks (sf shoulderW chestW waistW hipW : ℝ) :
    List (ℚ × ℝ) :=
  [(0, 0),
   (1/10, hipW * 0.4),
   (35/100, hipW * 0.45),
   (45/100, hipW * 0.5),
   (58/100, waistW * 0.5),
   (72/100, chestW * 0.5),
   (8/10, shoulderW * 0.5),
   (83/100, 0.045 * sf),
   (86/100, 0.040 * sf)]

/-- The landmark-interpolation loop of the extended `ModelViewer`: the first
pair of consecutive landmarks bracketing `t` contributes a linear
interpolation; if no segment brackets `t` the initial value `r = 0` is
kept. -/
noncomputable def segRadius : List (ℚ × ℝ) → ℚ → ℝ
  | (t1, r1) :: (t2, r2) :: rest, t =>
      if t1 ≤ t ∧ t ≤ t2 then
        lerp r1 r2 (((t : ℝ) - (t1 : ℝ)) / ((t2 : ℝ) - (t1 : ℝ)))
      else segRadius ((t2, r2) :: rest) t
  | _, _ => 0

/-- The per-sample radius of the extended `ModelViewer` profile: landmark
interpolation, overridden for `t > 0.86` by the spherical head profile
`sqrt(max(0, 1 - (headT*2 - 1)^2)) * 0.08 * sf` (in this exact-real model the
square root is total, so the `isNaN` fallback branch of the source is
unreachable). -/
noncomputable def radiusAt (sf shoulderW chestW waistW hipW : ℝ) (t : ℚ) : ℝ :=
  let r := segRadius (landmarks sf shoulderW chestW waistW hipW) t
  if t > 86/100 then
    let headT : ℝ := ((t : ℝ) - 0.86) / (1.0 - 0.86)
    Real.sqrt (max 0 (1 - (headT * 2 - 1) ^ 2)) * (0.08 * sf)
  else r

/-- The profile point list built by the extended `ModelViewer`: 41 samples
(`density = 40`), each a `(radius, currentT * scaleFactor)` pair with
`scaleFactor = userHeight / 100`. -/
noncomputable def meshProfile (userHeight shoulderW chestW waistW hipW : ℝ) :
    List (ℝ × ℝ) :=
  let sf := userHeight / 100
  (List.range 41).map (fun i : ℕ =>
    (radiusAt sf shoulderW chestW waistW hipW ((i : ℚ) / 40),
     ((i : ℝ) / 40) * sf))

/-- The head-region radius of the simple `ModelViewer` variant, executed on
JavaScript numbers:
`Math.sqrt(1 - Math.pow((headT - 0.5) * 2, 2)) * 0.1 * scaleFactor`
(no clamp and no NaN fallback in this variant). -/
noncomputable def headRadiusSimple (sf headT : ℝ) : JSNum :=
  jsMul
    (jsMul
      (jsSqrt (jsSub (.num 1)
        (jsSq (jsMul (jsSub (.num headT) (.num 0.5)) (.num 2)))))
      (.num 0.1))
    (.num sf)

/-- The head-region radius of the extended `ModelViewer` variant, executed on
JavaScript numbers:
`r = Math.sqrt(Math.max(0, 1 - Math.pow(headT * 2 - 1, 2))) * (0.08 * sf);
if (isNaN(r)) r = 0.005`. -/
noncomputable def headRadiusExtended (sf headT : ℝ) : JSNum :=
  let r := jsMul
    (jsSqrt (jsMax (.num 0)
      (jsSub (.num 1) (jsSq (jsSub (jsMul (.num headT) (.num 2)) (.num 1))))))
    (.num (0.08 * sf))
  if jsIsNaN r then .num 0.005 else r

/-- A child of the three.js model group, reduced to what the OBJ exporter
consumes: a triangle mesh (vertex positions and triangle indices) or a line
object (vertex positions).  `THREE.Line`, `THREE.LineSegments` and
`THREE.GridHelper` (a `LineSegments`) are all line objects. -/
inductive Obj3D where
  | meshObj (vertices : List (ℝ × ℝ × ℝ)) (faces : List (ℕ × ℕ × ℕ)) : Obj3D
  | lineObj (vertices : List (ℝ × ℝ × ℝ)) : Obj3D

/-- Vertices of `THREE.LatheGeometry(points, segments)`: for each of the
`segments + 1` angular stations `phi = 2*pi*i/segments`, each profile point
`(x, y)` becomes `(x*sin(phi), y, x*cos(phi))`. -/
noncomputable def latheVertices (pts : List (ℝ × ℝ)) (segments : ℕ) :
    List (ℝ × ℝ × ℝ) :=
  ((List.range (segments + 1)).map (fun i : ℕ =>
    pts.map (fun p =>
      (p.1 * Real.sin (2 * Real.pi * (i : ℝ) / (segments : ℝ)), p.2,
       p.1 * Real.cos (2 * Real.pi * (i : ℝ) / (segments : ℝ)))))).flatten

/-- Triangle indices of `THREE.LatheGeometry` with `npts` profile points and
`segments` angular segments: each quad of the lathe grid splits into two
triangles. -/
def latheFaces (npts segments : ℕ) : List (ℕ × ℕ × ℕ) :=
  (List.range segments).flatMap (fun i =>
    (List.range (npts - 1)).flatMap (fun j =>
      let base := j + i * npts
      [(base, base + npts, base + 1),
       (base + npts + 1, base + 1, base + npts)]))

/-- Call `geometry.scale(1, 1, 0.7)`: scale every vertex's z coordinate. -/
noncomputable def scaleZ (k : ℝ) (vs : List (ℝ × ℝ × ℝ)) : List (ℝ × ℝ × ℝ) :=
  vs.map (fun p => (p.1, p.2.1, p.2.2 * k))

/-- The measuring-tape curve of `createTape`: 65 points of
`THREE.EllipseCurve(0, 0, rx, rz).getPoints(64)`, each mapped to
`(p.x, yPos, p.y)`. -/
noncomputable def tapePoints (rx rz yPos : ℝ) : List (ℝ × ℝ × ℝ) :=
  (List.range 65).map (fun i : ℕ =>
    (rx * Real.cos (2 * Real.pi * (i : ℝ) / 64), yPos,
     rz * Real.sin (2 * Real.pi * (i : ℝ) / 64)))

/-- Vertices of `THREE.GridHelper(6, 30)`: 31 lines in each direction over a
6x6 floor square (two segment endpoints per line per direction). -/
noncomputable def gridVertices : List (ℝ × ℝ × ℝ) :=
  (List.range 31).flatMap (fun i : ℕ =>
    let k : ℝ := -3 + (i : ℝ) * (6 / 30)
    [(-3, 0, k), (3, 0, k), (k, 0, -3), (k, 0, 3)])

/-- The children added to `modelGroup` by the extended `ModelViewer`: the
lathed body mesh (flattened in z by 0.7), the chest/waist/hip measuring
tapes, and the floor grid.  (The rigid vertical centering translation of the
group, which affects neither membership nor counts of exported records, is
omitted.) -/
noncomputable def modelGroupChildren (userHeight shoulderW chestW waistW hipW : ℝ) :
    List Obj3D :=
  let sf := userHeight / 100
  let profile := meshProfile userHeight shoulderW chestW waistW hipW
  [Obj3D.meshObj (scaleZ 0.7 (latheVertices profile 48))
      (latheFaces profile.length 48),
   Obj3D.lineObj (tapePoints (chestW / 2 + 0.005) ((chestW / 2) * 0.7 + 0.005)
      (0.72 * sf)),
   Obj3D.lineObj (tapePoints (waistW / 2 + 0.005) ((waistW / 2) * 0.7 + 0.005)
      (0.58 * sf)),
   Obj3D.lineObj (tapePoints (hipW / 2 + 0.005) ((hipW / 2) * 0.7 + 0.005)
      (0.45 * sf)),
   Obj3D.lineObj gridVertices]

/-- One record of the exported OBJ text: a vertex line, a (triangular) face
line, or a line-element line. -/
inductive OBJRecord where
  | v (x y z : ℝ) : OBJRecord
  | f (a b c : ℕ) : OBJRecord
  | l (idxs : List ℕ) : OBJRecord

/-- The serialization loop of the three.js `OBJExporter` (the external
library routine invoked by `exportToOBJ`): it traverses the group and
serializes every `Mesh` child as vertex and face records and every `Line`
child (including `LineSegments`/`GridHelper`) as vertex records plus a line
record; `off` is the running 0-based vertex offset (OBJ indices are
1-based). -/
noncomputable def exportObjAux : List Obj3D → ℕ → List OBJRecord
  | [], _ => []
  | .meshObj vs fs :: rest, off =>
      vs.map (fun p => OBJRecord.v p.1 p.2.1 p.2.2) ++
      fs.map (fun t => OBJRecord.f (t.1 + off + 1) (t.2.1 + off + 1) (t.2.2 + off + 1)) ++
      exportObjAux rest (off + vs.length)
  | .lineObj vs :: rest, off =>
      vs.map (fun p => OBJRecord.v p.1 p.2.1 p.2.2) ++
      [OBJRecord.l ((List.range vs.length).map (fun j => j + off + 1))] ++
      exportObjAux rest (off + vs.length)

/-- Call `new OBJExporter().parse(sceneRef.current.modelGroup)` from
`exportToOBJ`. -/
noncomputable def exportOBJ (objs : List Obj3D) : List OBJRecord :=
  exportObjAux objs 0

/-- Assignment `link.download = 'Body3DMetric_Scan.obj'` from `exportToOBJ`. -/
def exportFileName : String := "Body3DMetric_Scan.obj"

/-- Oracle response with all five ratio fields present and equal, chosen so
that each derived width is `1` cm at height 170. -/
noncomputable def respUnit : AnalysisResponse :=
  ⟨⟨.num (1/170), .num (1/170), .num (1/170), .num (1/170), .num (1/170)⟩,
   .num 0.9⟩

/-- Oracle response whose `waistRatio` field is missing from the parsed
JSON (reads as `undefined`). -/
noncomputable def respMissing : AnalysisResponse :=
  ⟨⟨.undef, .num 0.28, .num 0.3, .num 0.27, .num 0.32⟩, .num 0.9⟩

/-- Oracle response with tiny (but present and positive) ratios, chosen so
that each derived width is `0.1` cm at height 170 and the rounded
circumferences are `0`. -/
noncomputable def respSmall : AnalysisResponse :=
  ⟨⟨.num (1/1700), .num (1/1700), .num (1/1700), .num (1/1700), .num (1/1700)⟩,
   .num 0.9⟩

/-- A fixed set of plausible ratio fields (used to compare runs that differ
only in the oracle's confidence). -/
noncomputable def ratiosPlausible : RatioFields :=
  ⟨.num 0.25, .num 0.28, .num 0.3, .num 0.27, .num 0.32⟩

lemma jsAdd_num (x y : ℝ) : jsAdd (.num x) (.num y) = .num (x + y) := rfl

lemma jsSub_num (x y : ℝ) : jsSub (.num x) (.num y) = .num (x - y) := rfl

lemma jsMul_num (x y : ℝ) : jsMul (.num x) (.num y) = .num (x * y) := rfl

lemma jsSq_num (x : ℝ) : jsSq (.num x) = .num (x ^ 2) := rfl

lemma jsRound_num (x : ℝ) : jsRound (.num x) = .num ((round x : ℤ) : ℝ) := rfl

lemma jsDiv_num (x y : ℝ) (hy : y ≠ 0) :
    jsDiv (.num x) (.num y) = .num (x / y) := by
  simp [jsDiv, hy]

lemma jsDiv_num_zero_zero : jsDiv (.num 0) (.num 0) = .nan := by
  simp [jsDiv]

lemma jsDiv_nan_left (y : JSNum) : jsDiv .nan y = .nan := by
  cases y <;> rfl

lemma jsDiv_num_pos_zero (x : ℝ) (hx : 0 < x) :
    jsDiv (.num x) (.num 0) = .inf := by
  simp [jsDiv, hx.ne', hx]

lemma jsSqrt_num (x : ℝ) (hx : 0 ≤ x) :
    jsSqrt (.num x) = .num (Real.sqrt x) := by
  simp [jsSqrt, not_lt.mpr hx]

lemma jsMax_num (x y : ℝ) : jsMax (.num x) (.num y) = .num (max x y) := rfl

lemma jsToFixed_num (k : ℕ) (x : ℝ) :
    jsToFixed k (.num x) = .num (((round (x * 10 ^ k) : ℤ) : ℝ) / 10 ^ k) := rfl

lemma round_eq_int (x : ℝ) (n : ℤ) (h1 : (n : ℝ) ≤ x + 1 / 2)
    (h2 : x + 1 / 2 < (n : ℝ) + 1) : round x = n := by
  rw [round_eq]
  exact Int.floor_eq_iff.mpr ⟨h1, by linarith⟩

lemma ramanujanPerimeter_eq (d w : ℝ) (hw : w ≠ 0) (hd : (1 : ℝ) + d ≠ 0) :
    ramanujanPerimeter d w =
      Real.pi * (w * (1 + d) / 2) *
        (1 + 3 * ((1 - d) / (1 + d)) ^ 2 /
          (10 + Real.sqrt (4 - 3 * ((1 - d) / (1 + d)) ^ 2))) := by
  have hne1 : w / 2 + w * d / 2 ≠ 0 := by
    have he : w / 2 + w * d / 2 = w * (1 + d) / 2 := by ring
    rw [he]
    exact div_ne_zero (mul_ne_zero hw hd) two_ne_zero
  have h2 : (w / 2 - w * d / 2) ^ 2 / (w / 2 + w * d / 2) ^ 2 =
      ((1 - d) / (1 + d)) ^ 2 := by
    rw [div_pow, div_eq_div_iff (pow_ne_zero 2 hne1) (pow_ne_zero 2 hd)]
    ring
  have h1 : w / 2 + w * d / 2 = w * (1 + d) / 2 := by ring
  simp only [ramanujanPerimeter]
  rw [h2, h1]

lemma ramanujanPerimeter_bounds (d w l u : ℝ) (hw : 0 < w) (hd0 : 0 ≤ d)
    (hl0 : 0 ≤ l) (hu0 : 0 ≤ u)
    (hl : l ^ 2 ≤ 4 - 3 * ((1 - d) / (1 + d)) ^ 2)
    (hu : 4 - 3 * ((1 - d) / (1 + d)) ^ 2 ≤ u ^ 2) :
    Real.pi * (w * (1 + d) / 2) * (1 + 3 * ((1 - d) / (1 + d)) ^ 2 / (10 + u)) ≤
        ramanujanPerimeter d w ∧
      ramanujanPerimeter d w ≤
        Real.pi * (w * (1 + d) / 2) *
          (1 + 3 * ((1 - d) / (1 + d)) ^ 2 / (10 + l)) := by
  have hd1 : (0 : ℝ) < 1 + d := by linarith
  rw [ramanujanPerimeter_eq d w hw.ne' hd1.ne']
  have hH0 : (0 : ℝ) ≤ ((1 - d) / (1 + d)) ^ 2 := sq_nonneg _
  have hs0 : 0 ≤ Real.sqrt (4 - 3 * ((1 - d) / (1 + d)) ^ 2) := Real.sqrt_nonneg _
  have hsl : l ≤ Real.sqrt (4 - 3 * ((1 - d) / (1 + d)) ^ 2) := by
    calc l = Real.sqrt (l ^ 2) := (Real.sqrt_sq hl0).symm
    _ ≤ _ := Real.sqrt_le_sqrt hl
  have hsu : Real.sqrt (4 - 3 * ((1 - d) / (1 + d)) ^ 2) ≤ u := by
    calc Real.sqrt (4 - 3 * ((1 - d) / (1 + d)) ^ 2) ≤ Real.sqrt (u ^ 2) :=
      Real.sqrt_le_sqrt hu
    _ = u := Real.sqrt_sq hu0
  have hA : 0 ≤ Real.pi * (w * (1 + d) / 2) := by positivity
  constructor
  · apply mul_le_mul_of_nonneg_left _ hA
    have h10 : (0 : ℝ) < 10 + Real.sqrt (4 - 3 * ((1 - d) / (1 + d)) ^ 2) := by
      linarith
    have := div_le_div_of_nonneg_left (by linarith : (0:ℝ) ≤ 3 * ((1 - d) / (1 + d)) ^ 2)
      h10 (by linarith : 10 + Real.sqrt (4 - 3 * ((1 - d) / (1 + d)) ^ 2) ≤ 10 + u)
    linarith
  · apply mul_le_mul_of_nonneg_left _ hA
    have h10 : (0 : ℝ) < 10 + l := by linarith
    have := div_le_div_of_nonneg_left (by linarith : (0:ℝ) ≤ 3 * ((1 - d) / (1 + d)) ^ 2)
      h10 (by linarith : 10 + l ≤ 10 + Real.sqrt (4 - 3 * ((1 - d) / (1 + d)) ^ 2))
    linarith

lemma calcCircumference_eq_of_bounds (d w l u : ℝ) (n : ℤ) (hw : 0 < w)
    (hd0 : 0 ≤ d) (hl0 : 0 ≤ l) (hu0 : 0 ≤ u)
    (hl : l ^ 2 ≤ 4 - 3 * ((1 - d) / (1 + d)) ^ 2)
    (hu : 4 - 3 * ((1 - d) / (1 + d)) ^ 2 ≤ u ^ 2)
    (hlo : (n : ℝ) ≤
      3.141592 * (w * (1 + d) / 2) * (1 + 3 * ((1 - d) / (1 + d)) ^ 2 / (10 + u))
        + 1 / 2)
    (hhi : 3.141593 * (w * (1 + d) / 2) *
        (1 + 3 * ((1 - d) / (1 + d)) ^ 2 / (10 + l)) + 1 / 2 < (n : ℝ) + 1) :
    calcCircumference d w = n := by
  obtain ⟨hb1, hb2⟩ :=
    ramanujanPerimeter_bounds d w l u hw hd0 hl0 hu0 hl hu
  have hπ1 := Real.pi_gt_d6
  have hπ2 := Real.pi_lt_d6
  have hA : (0 : ℝ) ≤ w * (1 + d) / 2 := by positivity
  have hE1 : (0 : ℝ) ≤ 1 + 3 * ((1 - d) / (1 + d)) ^ 2 / (10 + u) := by positivity
  have hE2 : (0 : ℝ) ≤ 1 + 3 * ((1 - d) / (1 + d)) ^ 2 / (10 + l) := by positivity
  have lo : 3.141592 * (w * (1 + d) / 2) *
      (1 + 3 * ((1 - d) / (1 + d)) ^ 2 / (10 + u)) ≤ ramanujanPerimeter d w := by
    refine le_trans (mul_le_mul_of_nonneg_right
      (mul_le_mul_of_nonneg_right hπ1.le hA) hE1) hb1
  have hi : ramanujanPerimeter d w ≤ 3.141593 * (w * (1 + d) / 2) *
      (1 + 3 * ((1 - d) / (1 + d)) ^ 2 / (10 + l)) := by
    refine le_trans hb2 (mul_le_mul_of_nonneg_right
      (mul_le_mul_of_nonneg_right hπ2.le hA) hE2)
  exact round_eq_int _ n (by linarith) (by linarith)

lemma calcCircumference_07_80 : calcCircumference 0.7 80 = 215 := by
  apply calcCircumference_eq_of_bounds 0.7 80 1.9 2 215 <;> norm_num

lemma calcCircumference_075_1 : calcCircumference 0.75 1 = 3 := by
  apply calcCircumference_eq_of_bounds 0.75 1 1.9 2 3 <;> norm_num

lemma calcCircumference_078_1 : calcCircumference 0.78 1 = 3 := by
  apply calcCircumference_eq_of_bounds 0.78 1 1.9 2 3 <;> norm_num

lemma calcCircumference_075_01 : calcCircumference 0.75 0.1 = 0 := by
  apply calcCircumference_eq_of_bounds 0.75 0.1 1.9 2 0 <;> norm_num

lemma jsCalcCircumference_nan (d : ℝ) : jsCalcCircumference d .nan = .nan := rfl

lemma jsCalcCircumference_num (d w : ℝ) (hd0 : 0 ≤ d) (hw : 0 < w) :
    jsCalcCircumference d (.num w) = .num ((calcCircumference d w : ℤ) : ℝ) := by
  have hab : (0 : ℝ) < w / 2 + w * d / 2 := by nlinarith
  have h4 : (0 : ℝ) ≤
      4 - 3 * ((w / 2 - w * d / 2) ^ 2 / (w / 2 + w * d / 2) ^ 2) := by
    have hle : (w / 2 - w * d / 2) ^ 2 ≤ (w / 2 + w * d / 2) ^ 2 := by
      nlinarith [mul_nonneg (mul_self_nonneg w) hd0]
    have hone : (w / 2 - w * d / 2) ^ 2 / (w / 2 + w * d / 2) ^ 2 ≤ 1 :=
      (div_le_one (by positivity)).mpr hle
    linarith
  have d1 : ∀ x : ℝ, jsDiv (.num x) (.num 2) = .num (x / 2) := fun x =>
    jsDiv_num x 2 two_ne_zero
  have d2 : ∀ x : ℝ, jsDiv (.num x) (.num ((w / 2 + w * d / 2) ^ 2)) =
      .num (x / (w / 2 + w * d / 2) ^ 2) := fun x =>
    jsDiv_num x _ (pow_ne_zero 2 hab.ne')
  have d3 : ∀ x : ℝ, jsDiv (.num x)
      (.num (10 + Real.sqrt
        (4 - 3 * ((w / 2 - w * d / 2) ^ 2 / (w / 2 + w * d / 2) ^ 2)))) =
      .num (x / (10 + Real.sqrt
        (4 - 3 * ((w / 2 - w * d / 2) ^ 2 / (w / 2 + w * d / 2) ^ 2)))) :=
    fun x => jsDiv_num x _ (by positivity)
  simp only [jsCalcCircumference, jsPi, jsMul_num, d1, jsSub_num, jsAdd_num,
    jsSq_num, d2, jsSqrt_num _ h4, d3, jsRound_num, calcCircumference,
    ramanujanPerimeter]

lemma jsCalcCircumference_zero (d : ℝ) : jsCalcCircumference d (.num 0) = .nan := by
  have h0 : jsMul (.num 0) (.num d) = .num 0 := by rw [jsMul_num, zero_mul]
  have h02 : jsDiv (.num 0) (.num 2) = .num 0 := by
    rw [jsDiv_num 0 2 two_ne_zero, zero_div]
  simp only [jsCalcCircumference, h0, h02, jsSub_num, jsAdd_num, jsSq_num]
  rw [show ((0 : ℝ) - 0) ^ 2 = 0 by norm_num, show ((0 : ℝ) + 0) ^ 2 = 0 by norm_num,
    jsDiv_num_zero_zero]
  rfl

lemma status_185 : getBMIStatus 18.5 = "NORMAL" := by norm_num [getBMIStatus]

lemma status_184 : getBMIStatus 18.4 = "BAJO PESO" := by norm_num [getBMIStatus]

lemma bmiOf_170_535 : bmiOf 170 53.5 = .num 18.5 := by
  unfold bmiOf
  rw [jsDiv_num 170 100 (by norm_num), show (170 : ℝ) / 100 = 1.7 by norm_num,
    jsSq_num, show (1.7 : ℝ) ^ 2 = 2.89 by norm_num,
    jsDiv_num 53.5 2.89 (by norm_num), jsToFixed_num,
    show round ((53.5 : ℝ) / 2.89 * 10 ^ 1) = 185 from
      round_eq_int _ 185 (by norm_num) (by norm_num)]
  norm_num

lemma bmiOf_170_534 : bmiOf 170 53.4 = .num 18.5 := by
  unfold bmiOf
  rw [jsDiv_num 170 100 (by norm_num), show (170 : ℝ) / 100 = 1.7 by norm_num,
    jsSq_num, show (1.7 : ℝ) ^ 2 = 2.89 by norm_num,
    jsDiv_num 53.4 2.89 (by norm_num), jsToFixed_num,
    show round ((53.4 : ℝ) / 2.89 * 10 ^ 1) = 185 from
      round_eq_int _ 185 (by norm_num) (by norm_num)]
  norm_num

lemma bmiOf_170_533 : bmiOf 170 53.3 = .num 18.4 := by
  unfold bmiOf
  rw [jsDiv_num 170 100 (by norm_num), show (170 : ℝ) / 100 = 1.7 by norm_num,
    jsSq_num, show (1.7 : ℝ) ^ 2 = 2.89 by norm_num,
    jsDiv_num 53.3 2.89 (by norm_num), jsToFixed_num,
    show round ((53.3 : ℝ) / 2.89 * 10 ^ 1) = 184 from
      round_eq_int _ 184 (by norm_num) (by norm_num)]
  norm_num

lemma respSmall_circ :
    jsCalcCircumference (depthFactor 30) (jsMul (.num (1 / 1700)) (.num 170)) =
      .num 0 := by
  rw [jsMul_num, show (1 / 1700 : ℝ) * 170 = 0.1 by norm_num,
    show depthFactor 30 = 0.75 by norm_num [depthFactor],
    jsCalcCircumference_num 0.75 0.1 (by norm_num) (by norm_num),
    calcCircumference_075_01]
  norm_num

lemma respUnit_circ_60 :
    jsCalcCircumference (depthFactor 60) (jsMul (.num (1 / 170)) (.num 170)) =
      .num 3 := by
  rw [jsMul_num, show (1 / 170 : ℝ) * 170 = 1 by norm_num,
    show depthFactor 60 = 0.78 by norm_num [depthFactor],
    jsCalcCircumference_num 0.78 1 (by norm_num) (by norm_num),
    calcCircumference_078_1]
  norm_num

lemma respUnit_circ_40 :
    jsCalcCircumference (depthFactor 40) (jsMul (.num (1 / 170)) (.num 170)) =
      .num 3 := by
  rw [jsMul_num, show (1 / 170 : ℝ) * 170 = 1 by norm_num,
    show depthFactor 40 = 0.75 by norm_num [depthFactor],
    jsCalcCircumference_num 0.75 1 (by norm_num) (by norm_num),
    calcCircumference_075_1]
  norm_num

/-- C1 (amended): the engine computes the circumference as
`round(pi*(a+b)*(1 + 3h/(10 + sqrt(4-3h))))` with `a = w/2`,
`b = w*depthFactor/2`, `h = (a-b)^2/(a+b)^2`; for width 80 cm and depth
factor 0.70 (`a = 40, b = 28`) the resulting waist circumference is 215 cm
(not 212 cm as the specification states). -/
theorem claim1_ellipse_perimeter_value :
    (∀ w : ℝ, calcCircumference 0.7 w = round (ramanujanPerimeter 0.7 w)) ∧
      calcCircumference 0.7 80 = 215 :=
  ⟨fun _ => rfl, calcCircumference_07_80⟩

/-- C1 counterexample: at width 80 and depth factor 0.70 the computed
circumference is not 212. -/
theorem claim1_value_not_212 : calcCircumference 0.7 80 ≠ 212 := by
  rw [calcCircumference_07_80]
  norm_num

/-- C8: when the depth factor is `1.0` (so `a = b`), the unrounded
Ramanujan value degenerates to the circle perimeter `2*pi*a` exactly, for
every positive width. -/
theorem claim8_circle_degeneracy (w : ℝ) (hw : 0 < w) :
    ramanujanPerimeter 1 w = 2 * Real.pi * (w / 2) := by
  simp only [ramanujanPerimeter]
  rw [show w / 2 - w * 1 / 2 = 0 by ring]
  rw [show ((0 : ℝ)) ^ 2 / (w / 2 + w * 1 / 2) ^ 2 = 0 by
    rw [zero_pow two_ne_zero, zero_div]]
  rw [show (4 : ℝ) - 3 * 0 = 2 ^ 2 by norm_num,
    Real.sqrt_sq (by norm_num : (0 : ℝ) ≤ 2)]
  ring

/-- C8 witness at width 2. -/
theorem claim8_witness :
    (0 : ℝ) < 2 ∧ ramanujanPerimeter 1 2 = 2 * Real.pi * (2 / 2) :=
  ⟨by norm_num, claim8_circle_degeneracy 2 (by norm_num)⟩

/-- C4 (amended): the extended variant uses depth factor 0.78 for age > 50
and 0.75 otherwise; for every positive width the unrounded perimeter is
strictly larger at depth factor 0.78 than at 0.75, and the rounded
circumference is at least as large (strictness after integer rounding can
fail for small widths, see the counterexample). -/
theorem claim4_age_depth_monotone :
    depthFactor 60 = 0.78 ∧ depthFactor 40 = 0.75 ∧
      ∀ w : ℝ, 0 < w →
        ramanujanPerimeter 0.75 w < ramanujanPerimeter 0.78 w ∧
          calcCircumference 0.75 w ≤ calcCircumference 0.78 w := by
  refine ⟨by norm_num [depthFactor], by norm_num [depthFactor], fun w hw => ?_⟩
  have hpw : (0 : ℝ) < Real.pi * w := mul_pos Real.pi_pos hw
  obtain ⟨lo78, -⟩ := ramanujanPerimeter_bounds 0.78 w 1.9 2 hw
    (by norm_num) (by norm_num) (by norm_num) (by norm_num) (by norm_num)
  obtain ⟨-, hi75⟩ := ramanujanPerimeter_bounds 0.75 w 1.9 2 hw
    (by norm_num) (by norm_num) (by norm_num) (by norm_num) (by norm_num)
  have c : ((1 + 0.75 : ℝ) / 2) * (1 + 3 * ((1 - 0.75) / (1 + 0.75)) ^ 2 / (10 + 1.9)) <
      ((1 + 0.78 : ℝ) / 2) * (1 + 3 * ((1 - 0.78) / (1 + 0.78)) ^ 2 / (10 + 2)) := by
    norm_num
  have e1 : Real.pi * (w * (1 + 0.75) / 2) *
      (1 + 3 * ((1 - 0.75) / (1 + 0.75)) ^ 2 / (10 + 1.9)) =
      (Real.pi * w) * (((1 + 0.75) / 2) *
        (1 + 3 * ((1 - 0.75) / (1 + 0.75)) ^ 2 / (10 + 1.9))) := by ring
  have e2 : Real.pi * (w * (1 + 0.78) / 2) *
      (1 + 3 * ((1 - 0.78) / (1 + 0.78)) ^ 2 / (10 + 2)) =
      (Real.pi * w) * (((1 + 0.78) / 2) *
        (1 + 3 * ((1 - 0.78) / (1 + 0.78)) ^ 2 / (10 + 2))) := by ring
  have key : Real.pi * (w * (1 + 0.75) / 2) *
      (1 + 3 * ((1 - 0.75) / (1 + 0.75)) ^ 2 / (10 + 1.9)) <
      Real.pi * (w * (1 + 0.78) / 2) *
        (1 + 3 * ((1 - 0.78) / (1 + 0.78)) ^ 2 / (10 + 2)) := by
    rw [e1, e2]
    exact mul_lt_mul_of_pos_left c hpw
  have hlt : ramanujanPerimeter 0.75 w < ramanujanPerimeter 0.78 w := by
    linarith
  refine ⟨hlt, ?_⟩
  unfold calcCircumference
  rw [round_eq, round_eq]
  exact Int.floor_mono (by linarith)

/-- C4 witness at width 80. -/
theorem claim4_witness :
    (0 : ℝ) < 80 ∧ ramanujanPerimeter 0.75 80 < ramanujanPerimeter 0.78 80 ∧
      calcCircumference 0.75 80 ≤ calcCircumference 0.78 80 :=
  ⟨by norm_num, claim4_age_depth_monotone.2.2 80 (by norm_num)⟩

/-- C4 counterexample: two analyses with identical ratio inputs (each derived
width 1 cm at height 170) and ages 60 and 40 produce the same rounded waist
circumference (3 cm both), so the age-60 run is not strictly larger. -/
theorem claim4_rounding_collapse :
    (processImage respUnit 170 70 60).waistCircumference =
      (processImage respUnit 170 70 40).waistCircumference ∧
    (60 : ℝ) ≠ 40 := by
  constructor
  · exact respUnit_circ_60.trans respUnit_circ_40.symm
  · norm_num

/-- C5 (amended): at height 170 cm, weight 53.5 kg gives bmi 18.5 which
classifies as "NORMAL" (inclusive lower bound); weight 53.4 kg also gives
bmi 18.5 (53.4/1.7^2 = 18.4775..., which rounds up), and an "underweight"
classification requires e.g. weight 53.3 kg (bmi 18.4). -/
theorem claim5_bmi_boundary :
    bmiOf 170 53.5 = .num 18.5 ∧ getBMIStatus 18.5 = "NORMAL" ∧
      bmiOf 170 53.4 = .num 18.5 ∧
      bmiOf 170 53.3 = .num 18.4 ∧ getBMIStatus 18.4 = "BAJO PESO" :=
  ⟨bmiOf_170_535, status_185, bmiOf_170_534, bmiOf_170_533, status_184⟩

/-- C5 counterexample: with weight 53.4 kg the rounded bmi is 18.5 (not
18.4), and it classifies as "NORMAL" (not underweight). -/
theorem claim5_counterexample :
    bmiOf 170 53.4 = .num 18.5 ∧ bmiOf 170 53.4 ≠ .num 18.4 ∧
      getBMIStatus 18.5 = "NORMAL" := by
  refine ⟨bmiOf_170_534, ?_, status_185⟩
  rw [bmiOf_170_534]
  simp only [ne_eq, JSNum.num.injEq]
  norm_num

lemma respSmall_whr_nan : (processImage respSmall 170 70 30).whr = .nan := by
  show jsToFixed 2
    (jsDiv (jsCalcCircumference (depthFactor 30) (jsMul (.num (1 / 1700)) (.num 170)))
      (jsCalcCircumference (depthFactor 30) (jsMul (.num (1 / 1700)) (.num 170)))) = .nan
  rw [respSmall_circ, jsDiv_num_zero_zero]
  rfl

lemma respSmall_bmi_inf : (processImage respSmall 0 70 30).bmi = .inf := by
  show bmiOf 0 70 = .inf
  unfold bmiOf
  rw [jsDiv_num 0 100 (by norm_num), show (0 : ℝ) / 100 = 0 by norm_num,
    jsSq_num, show ((0 : ℝ)) ^ 2 = 0 by norm_num,
    jsDiv_num_pos_zero 70 (by norm_num)]
  rfl

lemma respSmall_whtr_nan : (processImage respSmall 0 70 30).whtr = .nan := by
  show jsToFixed 2
    (jsDiv (jsCalcCircumference (depthFactor 30) (jsMul (.num (1 / 1700)) (.num 0)))
      (.num 0)) = .nan
  rw [jsMul_num, show (1 / 1700 : ℝ) * 0 = 0 by norm_num, jsCalcCircumference_zero]
  rfl

/-- C2 (amended): the oracle response is not validated: whenever the
`waistRatio` field is missing (reads as `undefined`), the analysis still
succeeds and produces a measurement record whose waist width, waist
circumference and waist-hip ratio are `NaN`; no typed error is raised
after a successful JSON parse. -/
theorem claim2_missing_ratio_propagates_nan (resp : AnalysisResponse)
    (height weight age : ℝ) (h : resp.measurements.waistRatio = .undef) :
    runAnalysis (some resp) height weight age =
      .ok (processImage resp height weight age) ∧
    (processImage resp height weight age).waistWidth = .nan ∧
    (processImage resp height weight age).waistCircumference = .nan ∧
    (processImage resp height weight age).whr = .nan := by
  obtain ⟨⟨wr, hr, sr, cr, tr⟩, conf⟩ := resp
  have h2 : wr = .undef := h
  subst h2
  refine ⟨rfl, rfl, rfl, ?_⟩
  show jsToFixed 2
    (jsDiv (jsCalcCircumference (depthFactor age) (jsMul .undef (.num height)))
      (jsCalcCircumference (depthFactor age) (jsMul hr (.num height)))) = .nan
  rw [show jsMul JSNum.undef (.num height) = .nan from rfl,
    jsCalcCircumference_nan, jsDiv_nan_left]
  rfl

/-- C2 witness: concrete response with a missing `waistRatio`. -/
theorem claim2_witness :
    respMissing.measurements.waistRatio = JSNum.undef ∧
      (runAnalysis (some respMissing) 170 70 30 =
        .ok (processImage respMissing 170 70 30) ∧
      (processImage respMissing 170 70 30).waistWidth = .nan ∧
      (processImage respMissing 170 70 30).waistCircumference = .nan ∧
      (processImage respMissing 170 70 30).whr = .nan) :=
  ⟨rfl, claim2_missing_ratio_propagates_nan respMissing 170 70 30 rfl⟩

/-- C2 counterexample: a response with a missing `waistRatio` does not fail
with a typed error before width derivation: a record is produced, with `NaN`
width and circumference. -/
theorem claim2_no_validation_counterexample :
    runAnalysis (some respMissing) 170 70 30 =
      .ok (processImage respMissing 170 70 30) ∧
    (processImage respMissing 170 70 30).waistWidth = .nan ∧
    (processImage respMissing 170 70 30).waistCircumference = .nan :=
  ⟨rfl, rfl, rfl⟩

/-- C3 (amended): the index computation is not guarded: with a derived hip
circumference of 0 the analysis still succeeds and exposes a record whose
`whr` is `NaN` (0/0); with a height of 0 it succeeds and exposes a record
with `bmi = Infinity` and `whtr = NaN`; no fatal input-validation error is
raised in either case. -/
theorem claim3_divide_by_zero_unguarded :
    ((processImage respSmall 170 70 30).hipCircumference = .num 0 ∧
      runAnalysis (some respSmall) 170 70 30 =
        .ok (processImage respSmall 170 70 30) ∧
      (processImage respSmall 170 70 30).whr = .nan) ∧
    ((processImage respSmall 0 70 30).bmi = .inf ∧
      runAnalysis (some respSmall) 0 70 30 =
        .ok (processImage respSmall 0 70 30) ∧
      (processImage respSmall 0 70 30).whtr = .nan) :=
  ⟨⟨respSmall_circ, rfl, respSmall_whr_nan⟩,
   ⟨respSmall_bmi_inf, rfl, respSmall_whtr_nan⟩⟩

/-- C3 counterexample: an input whose derived hip circumference is 0 raises
no error: the analysis returns a record whose `whr` is `NaN`. -/
theorem claim3_counterexample :
    (processImage respSmall 170 70 30).hipCircumference = .num 0 ∧
    runAnalysis (some respSmall) 170 70 30 =
      .ok (processImage respSmall 170 70 30) ∧
    (processImage respSmall 170 70 30).whr = .nan :=
  ⟨respSmall_circ, rfl, respSmall_whr_nan⟩

/-- C10 (amended): the oracle's confidence is not preserved: the
`BodyMeasurements` record has no confidence field and the output of
`processImage` is entirely independent of the response's confidence
value. -/
theorem claim10_confidence_dropped :
    ∀ (m : RatioFields) (c₁ c₂ : JSNum) (height weight age : ℝ),
      processImage ⟨m, c₁⟩ height weight age =
        processImage ⟨m, c₂⟩ height weight age :=
  fun _ _ _ _ _ _ => rfl

/-- C10 counterexample: two analyses identical except for confidence (0
versus 1) produce identical measurement records, so the record cannot carry
the confidence value. -/
theorem claim10_counterexample :
    processImage ⟨ratiosPlausible, .num 0⟩ 170 70 30 =
      processImage ⟨ratiosPlausible, .num 1⟩ 170 70 30 ∧
    JSNum.num 0 ≠ JSNum.num 1 := by
  refine ⟨rfl, ?_⟩
  simp only [ne_eq, JSNum.num.injEq]
  norm_num

/-- C6: sampling the head profile at the exact start and end of the head
region (`headT = 0` and `headT = 1`) produces the finite radius 0 (never
`NaN`) in both `ModelViewer` variants: at the boundary the square-root
argument is exactly 0 in the simple variant, and in the extended variant the
`max(0, .)` clamp keeps it at 0 and the `NaN` fallback is not needed. -/
theorem claim6_head_profile_no_nan (sf : ℝ) :
    headRadiusSimple sf 0 = .num 0 ∧ headRadiusSimple sf 1 = .num 0 ∧
      headRadiusExtended sf 0 = .num 0 ∧ headRadiusExtended sf 1 = .num 0 := by
  refine ⟨?_, ?_, ?_, ?_⟩
  · unfold headRadiusSimple
    norm_num [jsSub_num, jsMul_num, jsSq_num, jsSqrt_num 0 le_rfl,
      Real.sqrt_zero, zero_mul]
  · unfold headRadiusSimple
    norm_num [jsSub_num, jsMul_num, jsSq_num, jsSqrt_num 0 le_rfl,
      Real.sqrt_zero, zero_mul]
  · unfold headRadiusExtended
    norm_num [jsSub_num, jsMul_num, jsSq_num, jsMax_num, jsSqrt_num 0 le_rfl,
      Real.sqrt_zero, zero_mul, jsIsNaN]
  · unfold headRadiusExtended
    norm_num [jsSub_num, jsMul_num, jsSq_num, jsMax_num, jsSqrt_num 0 le_rfl,
      Real.sqrt_zero, zero_mul, jsIsNaN]

lemma meshProfile_heights (userHeight sW cW wW hW : ℝ) :
    (meshProfile userHeight sW cW wW hW).map Prod.snd =
      (List.range 41).map (fun i : ℕ => ((i : ℝ) / 40) * (userHeight / 100)) := by
  simp only [meshProfile, List.map_map]
  rfl

/-- C7: the profile's height coordinates are non-decreasing (for a
non-negative user height) and span exactly `[0, heightCm/100]`: the first
point's height is 0 and the last point's height is `heightCm/100`. -/
theorem claim7_profile_heights (userHeight sW cW wW hW : ℝ)
    (hh : 0 ≤ userHeight) :
    List.Chain' (· ≤ ·) ((meshProfile userHeight sW cW wW hW).map Prod.snd) ∧
    ((meshProfile userHeight sW cW wW hW).map Prod.snd).head? = some 0 ∧
    ((meshProfile userHeight sW cW wW hW).map Prod.snd).getLast? =
      some (userHeight / 100) := by
  have hsf : (0 : ℝ) ≤ userHeight / 100 := by positivity
  rw [meshProfile_heights]
  refine ⟨?_, ?_, ?_⟩
  · rw [List.chain'_map, show (41 : ℕ) = Nat.succ 40 from rfl,
      List.chain'_range_succ]
    intro m hm
    have hc : ((m : ℕ) : ℝ) ≤ ((Nat.succ m : ℕ) : ℝ) := by
      push_cast
      linarith
    exact mul_le_mul_of_nonneg_right
      ((div_le_div_iff_of_pos_right (by norm_num : (0 : ℝ) < 40)).mpr hc) hsf
  · rw [List.range_succ_eq_map]
    norm_num
  · rw [show (41 : ℕ) = 40 + 1 from rfl, List.range_succ, List.map_append]
    simp only [List.map_cons, List.map_nil, List.getLast?_concat]
    norm_num

/-- C7 witness at a concrete measurement record. -/
theorem claim7_witness :
    (0 : ℝ) ≤ 170 ∧
    (List.Chain' (· ≤ ·) ((meshProfile 170 0.45 0.4 0.35 0.42).map Prod.snd) ∧
     ((meshProfile 170 0.45 0.4 0.35 0.42).map Prod.snd).head? = some 0 ∧
     ((meshProfile 170 0.45 0.4 0.35 0.42).map Prod.snd).getLast? =
       some (170 / 100)) :=
  ⟨by norm_num, claim7_profile_heights 170 0.45 0.4 0.35 0.42 (by norm_num)⟩

lemma lineObj_gives_l :
    ∀ (objs : List Obj3D) (vs : List (ℝ × ℝ × ℝ)),
      Obj3D.lineObj vs ∈ objs →
      ∀ off : ℕ, ∃ ids, OBJRecord.l ids ∈ exportObjAux objs off := by
  intro objs
  induction objs with
  | nil =>
      intro vs h
      simp at h
  | cons hd tl ih =>
      intro vs h off
      rcases List.mem_cons.mp h with h1 | h1
      · subst h1
        refine ⟨(List.range vs.length).map (fun j => j + off + 1), ?_⟩
        simp [exportObjAux]
      · cases hd with
        | meshObj mv mf =>
            obtain ⟨ids, hid⟩ := ih vs h1 (off + mv.length)
            exact ⟨ids, by simp [exportObjAux, hid]⟩
        | lineObj lv =>
            obtain ⟨ids, hid⟩ := ih vs h1 (off + lv.length)
            exact ⟨ids, by simp [exportObjAux, hid]⟩

lemma mesh_face_in_export (mv : List (ℝ × ℝ × ℝ)) (mf : List (ℕ × ℕ × ℕ))
    (rest : List Obj3D) (t : ℕ × ℕ × ℕ) (ht : t ∈ mf) :
    OBJRecord.f (t.1 + 1) (t.2.1 + 1) (t.2.2 + 1) ∈
      exportObjAux (Obj3D.meshObj mv mf :: rest) 0 := by
  simp only [exportObjAux, List.mem_append, List.mem_map]
  exact Or.inl (Or.inr ⟨t, ht, by simp⟩)

lemma meshProfile_length (a b c d e : ℝ) :
    (meshProfile a b c d e).length = 41 := by
  simp [meshProfile]

lemma face0_mem : ((0 : ℕ), 41, 1) ∈ latheFaces 41 48 := by
  unfold latheFaces
  refine List.mem_flatMap.mpr ⟨0, by simp, ?_⟩
  refine List.mem_flatMap.mpr ⟨0, by simp, ?_⟩
  simp

/-- C9 (amended): the OBJ export serializes the entire model group passed to
the exporter: the body mesh's vertex and face records are present, but so is
at least one line record (the exporter serializes the measuring tapes and
the floor grid, which are `Line` children of the exported group, as OBJ line
elements — they are not excluded); the download file name is
'Body3DMetric_Scan.obj'. -/
theorem claim9_export_contents :
    (∀ h sW cW wW hW : ℝ,
      (∃ ids, OBJRecord.l ids ∈ exportOBJ (modelGroupChildren h sW cW wW hW)) ∧
      OBJRecord.f 1 42 2 ∈ exportOBJ (modelGroupChildren h sW cW wW hW)) ∧
    exportFileName = "Body3DMetric_Scan.obj" := by
  refine ⟨fun h sW cW wW hW => ⟨?_, ?_⟩, rfl⟩
  · exact lineObj_gives_l _
      (tapePoints (cW / 2 + 0.005) ((cW / 2) * 0.7 + 0.005) (0.72 * (h / 100)))
      (by simp [modelGroupChildren]) 0
  · have face_mem : ((0 : ℕ), 41, 1) ∈
        latheFaces (meshProfile h sW cW wW hW).length 48 := by
      rw [meshProfile_length]
      exact face0_mem
    exact mesh_face_in_export _ _ _ (0, 41, 1) face_mem

/-- C9 counterexample: for a concrete scene the exported record list contains
a line record, i.e. the serialized text includes the indicator-curve/grid
line geometry rather than excluding it (only `Line` children produce line
records, and the only `Line` children of the group are the three measuring
tapes and the floor grid). -/
theorem claim9_counterexample :
    (∃ ids, OBJRecord.l ids ∈
      exportOBJ (modelGroupChildren 170 0.45 0.4 0.35 0.42)) ∧
    exportFileName = "Body3DMetric_Scan.obj" :=
  ⟨lineObj_gives_l _
      (tapePoints (0.4 / 2 + 0.005) ((0.4 / 2) * 0.7 + 0.005) (0.72 * (170 / 100)))
      (by simp [modelGroupChildren]) 0,
   rfl⟩

end Body3D
